import Mathlib

/-!
# Verification of the rigel registry plugin (deployment of Docker images to registries)

Shallow embedding of the `ecr_rigel_plugin` package (the repository's current
package per `setup.py`) together with the registry selectors of the older
`registry_rigel_plugin` and `rigel_registry_plugin` generations.  Byte strings
are modelled as `List Nat` (each entry `< 256`), Python `str` values that are
only carried around as `String` or `List Char`, and the external collaborators
(environment-variable store, cloud identity service, container engine) as
explicit oracle inputs, so every operation is a pure Lean function.
-/

namespace EcrRigel

/-! ## Python `base64` (stdlib) on byte lists

`authenticate()` calls `base64.b64decode` on the token returned by the identity
service; the spec describes that token as `base64("AWS:" + secret)`.  The
standard base64 alphabet and the encode/decode chunking are reproduced here on
`List Nat` byte values. -/

/-- ASCII code of the standard base64 alphabet character for a sextet value. -/
def b64char (v : Nat) : Nat :=
  if v < 26 then 65 + v
  else if v < 52 then 97 + (v - 26)
  else if v < 62 then 48 + (v - 52)
  else if v = 62 then 43
  else 47

/-- Sextet value of a standard base64 alphabet character (ASCII code). -/
def b64index (c : Nat) : Nat :=
  if 65 ≤ c ∧ c ≤ 90 then c - 65
  else if 97 ≤ c ∧ c ≤ 122 then 26 + (c - 97)
  else if 48 ≤ c ∧ c ≤ 57 then 52 + (c - 48)
  else if c = 43 then 62
  else 63

/-- Python `base64.b64encode`: bytes to the ASCII codes of the encoding,
with `=` (ASCII 61) padding. -/
def b64encode : List Nat → List Nat
  | [] => []
  | [a] => [b64char (a / 4), b64char (a % 4 * 16), 61, 61]
  | [a, b] => [b64char (a / 4), b64char (a % 4 * 16 + b / 16), b64char (b % 16 * 4), 61]
  | a :: b :: c :: rest =>
      b64char (a / 4) :: b64char (a % 4 * 16 + b / 16) ::
        b64char (b % 16 * 4 + c / 64) :: b64char (c % 64) :: b64encode rest

/-- Python `base64.b64decode` on well-formed encodings: quadruples of alphabet
characters, padding allowed only in the final quadruple.  (On input whose
length is not a positive multiple of four Python raises `binascii.Error`;
that case is collapsed to `[]`, and is never reached from `b64encode`.) -/
def b64decode : List Nat → List Nat
  | w :: x :: y :: z :: e :: rest =>
      (b64index w * 4 + b64index x / 16) ::
        (b64index x % 16 * 16 + b64index y / 4) ::
        (b64index y % 4 * 64 + b64index z) :: b64decode (e :: rest)
  | [w, x, y, z] =>
      if y = 61 then [b64index w * 4 + b64index x / 16]
      else if z = 61 then
        [b64index w * 4 + b64index x / 16, b64index x % 16 * 16 + b64index y / 4]
      else
        [b64index w * 4 + b64index x / 16, b64index x % 16 * 16 + b64index y / 4,
          b64index y % 4 * 64 + b64index z]
  | _ => []

/-- The four ASCII bytes of the literal `b"AWS:"`. -/
def awsMarker : List Nat := [65, 87, 83, 58]

/-- Python `bytes.replace(b"AWS:", b"")`: delete every (left-to-right,
non-overlapping) occurrence of the four-byte pattern `AWS:`. -/
def pyReplaceAWS : List Nat → List Nat
  | b :: r1 :: r2 :: r3 :: rest =>
      if b = 65 ∧ r1 = 87 ∧ r2 = 83 ∧ r3 = 58 then pyReplaceAWS rest
      else b :: pyReplaceAWS (r1 :: r2 :: r3 :: rest)
  | s => s

/-- Python `b"AWS:" in s`: does the four-byte pattern `AWS:` occur in `s`? -/
def hasAWS : List Nat → Bool
  | b :: r1 :: r2 :: r3 :: rest =>
      if b = 65 ∧ r1 = 87 ∧ r2 = 83 ∧ r3 = 58 then true
      else hasAWS (r1 :: r2 :: r3 :: rest)
  | _ => false

/-- The token-decoding line of `authenticate()`:
`base64.b64decode(encoded_token).replace(b'AWS:', b'')`. -/
def resolveToken (encoded : List Nat) : List Nat :=
  pyReplaceAWS (b64decode encoded)

/-! ### Round-trip facts about the base64 model -/

theorem b64index_b64char (v : Nat) (h : v < 64) : b64index (b64char v) = v := by
  revert v h
  decide

theorem b64char_ne_pad (v : Nat) : b64char v ≠ 61 := by
  unfold b64char
  split_ifs <;> omega

theorem b64encode_ne_nil (l : List Nat) (h : l ≠ []) : b64encode l ≠ [] := by
  match l with
  | [] => exact absurd rfl h
  | [a] => simp [b64encode]
  | [a, b] => simp [b64encode]
  | a :: b :: c :: rest => simp [b64encode]

/-- Base64 decoding inverts encoding on byte lists. -/
theorem b64decode_b64encode (l : List Nat) (h : ∀ x ∈ l, x < 256) :
    b64decode (b64encode l) = l := by
  induction l using b64encode.induct with
  | case1 => rfl
  | case2 a =>
    have ha : a < 256 := h a (by simp)
    rw [b64encode]
    rw [show b64decode [b64char (a / 4), b64char (a % 4 * 16), 61, 61] =
        if (61 : Nat) = 61 then [b64index (b64char (a / 4)) * 4 + b64index (b64char (a % 4 * 16)) / 16]
        else if (61 : Nat) = 61 then
          [b64index (b64char (a / 4)) * 4 + b64index (b64char (a % 4 * 16)) / 16,
            b64index (b64char (a % 4 * 16)) % 16 * 16 + b64index (61 : Nat) / 4]
        else
          [b64index (b64char (a / 4)) * 4 + b64index (b64char (a % 4 * 16)) / 16,
            b64index (b64char (a % 4 * 16)) % 16 * 16 + b64index (61 : Nat) / 4,
            b64index (61 : Nat) % 4 * 64 + b64index (61 : Nat)] from rfl]
    rw [if_pos rfl]
    rw [b64index_b64char _ (by omega), b64index_b64char _ (by omega)]
    simp only [List.cons.injEq, and_true]
    omega
  | case3 a b =>
    have ha : a < 256 := h a (by simp)
    have hb : b < 256 := h b (by simp)
    rw [b64encode]
    rw [show b64decode [b64char (a / 4), b64char (a % 4 * 16 + b / 16), b64char (b % 16 * 4), 61] =
        if b64char (b % 16 * 4) = 61 then
          [b64index (b64char (a / 4)) * 4 + b64index (b64char (a % 4 * 16 + b / 16)) / 16]
        else if (61 : Nat) = 61 then
          [b64index (b64char (a / 4)) * 4 + b64index (b64char (a % 4 * 16 + b / 16)) / 16,
            b64index (b64char (a % 4 * 16 + b / 16)) % 16 * 16 + b64index (b64char (b % 16 * 4)) / 4]
        else
          [b64index (b64char (a / 4)) * 4 + b64index (b64char (a % 4 * 16 + b / 16)) / 16,
            b64index (b64char (a % 4 * 16 + b / 16)) % 16 * 16 + b64index (b64char (b % 16 * 4)) / 4,
            b64index (b64char (b % 16 * 4)) % 4 * 64 + b64index (b64char (b % 16 * 4))] from rfl]
    rw [if_neg (b64char_ne_pad _), if_pos rfl]
    rw [b64index_b64char _ (by omega), b64index_b64char _ (by omega),
      b64index_b64char _ (by omega)]
    simp only [List.cons.injEq, and_true]
    omega
  | case4 a b c rest ih =>
    have ha : a < 256 := h a (by simp)
    have hb : b < 256 := h b (by simp)
    have hc : c < 256 := h c (by simp)
    have h1 : b64index (b64char (a / 4)) * 4 +
        b64index (b64char (a % 4 * 16 + b / 16)) / 16 = a := by
      rw [b64index_b64char _ (by omega), b64index_b64char _ (by omega)]; omega
    have h2 : b64index (b64char (a % 4 * 16 + b / 16)) % 16 * 16 +
        b64index (b64char (b % 16 * 4 + c / 64)) / 4 = b := by
      rw [b64index_b64char _ (by omega), b64index_b64char _ (by omega)]; omega
    have h3 : b64index (b64char (b % 16 * 4 + c / 64)) % 4 * 64 +
        b64index (b64char (c % 64)) = c := by
      rw [b64index_b64char _ (by omega), b64index_b64char _ (by omega)]; omega
    rw [b64encode]
    rcases hrest : rest with _ | ⟨e, tail⟩
    · rw [show b64encode ([] : List Nat) = [] from rfl]
      rw [show b64decode [b64char (a / 4), b64char (a % 4 * 16 + b / 16),
          b64char (b % 16 * 4 + c / 64), b64char (c % 64)] =
          if b64char (b % 16 * 4 + c / 64) = 61 then
            [b64index (b64char (a / 4)) * 4 + b64index (b64char (a % 4 * 16 + b / 16)) / 16]
          else if b64char (c % 64) = 61 then
            [b64index (b64char (a / 4)) * 4 + b64index (b64char (a % 4 * 16 + b / 16)) / 16,
              b64index (b64char (a % 4 * 16 + b / 16)) % 16 * 16 +
                b64index (b64char (b % 16 * 4 + c / 64)) / 4]
          else
            [b64index (b64char (a / 4)) * 4 + b64index (b64char (a % 4 * 16 + b / 16)) / 16,
              b64index (b64char (a % 4 * 16 + b / 16)) % 16 * 16 +
                b64index (b64char (b % 16 * 4 + c / 64)) / 4,
              b64index (b64char (b % 16 * 4 + c / 64)) % 4 * 64 +
                b64index (b64char (c % 64))] from by simp [b64encode, b64decode]]
      rw [if_neg (b64char_ne_pad _), if_neg (b64char_ne_pad _)]
      simp [h1, h2, h3]
    · subst hrest
      have henc : b64encode (e :: tail) ≠ [] := b64encode_ne_nil _ (by simp)
      rcases hshape : b64encode (e :: tail) with _ | ⟨f, fs⟩
      · exact absurd hshape henc
      · rw [show b64decode (b64char (a / 4) :: b64char (a % 4 * 16 + b / 16) ::
            b64char (b % 16 * 4 + c / 64) :: b64char (c % 64) :: f :: fs) =
            (b64index (b64char (a / 4)) * 4 + b64index (b64char (a % 4 * 16 + b / 16)) / 16) ::
              (b64index (b64char (a % 4 * 16 + b / 16)) % 16 * 16 +
                b64index (b64char (b % 16 * 4 + c / 64)) / 4) ::
              (b64index (b64char (b % 16 * 4 + c / 64)) % 4 * 64 +
                b64index (b64char (c % 64))) :: b64decode (f :: fs) from rfl]
        rw [h1, h2, h3, ← hshape, ih (fun x hx => h x (by simp [hx]))]

/-- Deleting `AWS:` occurrences from a byte list free of them changes nothing. -/
theorem pyReplaceAWS_of_not_hasAWS (s : List Nat) (h : hasAWS s = false) :
    pyReplaceAWS s = s := by
  induction s using pyReplaceAWS.induct with
  | case1 b r1 r2 r3 rest hcond ih =>
    rw [hasAWS, if_pos hcond] at h
    exact absurd h (by simp)
  | case2 b r1 r2 r3 rest hcond ih =>
    rw [hasAWS, if_neg hcond] at h
    rw [pyReplaceAWS, if_neg hcond, ih h]
  | case3 s hshape =>
    rcases s with _ | ⟨x1, _ | ⟨x2, _ | ⟨x3, _ | ⟨x4, rest⟩⟩⟩⟩
    · rfl
    · rfl
    · rfl
    · rfl
    · exact absurd rfl (hshape x1 x2 x3 x4 rest)

/-- Deleting `AWS:` occurrences from `AWS:` followed by a byte list free of
them yields that list. -/
theorem pyReplaceAWS_marker (s : List Nat) (h : hasAWS s = false) :
    pyReplaceAWS (awsMarker ++ s) = s := by
  rw [show awsMarker ++ s = 65 :: 87 :: 83 :: 58 :: s from rfl]
  rw [pyReplaceAWS, if_pos (by norm_num)]
  exact pyReplaceAWS_of_not_hasAWS s h

/-! ## Error taxonomy

The typed errors of `ecr_rigel_plugin/exceptions.py` (plus the two errors the
registry selectors of the older package generations raise). -/

inductive RigelError
  | missingRequiredField (fieldPath : String)
  | invalidDockerImageName (image : List Char)
  | dockerImageNotFound (image : List Char)
  | undefinedEnvironmentVariable (varName : String)
  | invalidAWSCredentials
  | invalidImageRegistry (registry : List Char)
  | dockerPush (msg : String)
  | unsupportedDockerRegistry (registry : String)
  deriving DecidableEq

/-! ## Plugin configuration and `__post_init__`

`Plugin` in `ecr_rigel_plugin/ecr_rigel_plugin.py` is a dataclass; its
`__post_init__` checks the two credential sub-fields and then derives the
`registry` field.  `RawCredentials` models the `credentials` dictionary
restricted to the two keys `__post_init__` looks up. -/

structure RawCredentials where
  access_key : Option String
  secret_access_key : Option String
  deriving DecidableEq

structure PluginConfig where
  account : Nat
  credentials : RawCredentials
  image : List Char
  region : List Char
  local_image : List Char
  user : String
  deriving DecidableEq

/-- A `Plugin` instance after `__post_init__` succeeded: the credential
environment-variable names are present and `registry` is set. -/
structure Plugin where
  account : Nat
  access_key : String
  secret_access_key : String
  image : List Char
  region : List Char
  local_image : List Char
  user : String
  registry : List Char
  deriving DecidableEq

/-- `f'{self.account}.dkr.ecr.{self.region}.amazonaws.com'`. -/
def ecrRegistry (account : Nat) (region : List Char) : List Char :=
  (toString account).toList ++ ".dkr.ecr.".toList ++ region ++ ".amazonaws.com".toList

/-- `Plugin.__post_init__`: for each of `access_key`, `secret_access_key` (in
that order), raise `MissingRequiredFieldError(field=f"credentials[{c}]")` when
the credentials dictionary holds no value for it; then derive `registry`. -/
def pluginPostInit (cfg : PluginConfig) : Except RigelError Plugin :=
  match cfg.credentials.access_key with
  | none => .error (.missingRequiredField "credentials[access_key]")
  | some ak =>
    match cfg.credentials.secret_access_key with
    | none => .error (.missingRequiredField "credentials[secret_access_key]")
    | some sk =>
      .ok ⟨cfg.account, ak, sk, cfg.image, cfg.region, cfg.local_image, cfg.user,
        ecrRegistry cfg.account cfg.region⟩

/-! ## `tag()`

Python string helpers on `List Char`: `countC` models `':' in s` /
counting occurrences, `pySplit` models `s.split(sep)` for a one-character
separator. -/

def countC (c : Char) : List Char → Nat
  | [] => 0
  | x :: rest => (if x = c then 1 else 0) + countC c rest

def pySplit (sep : Char) : List Char → List (List Char)
  | [] => [[]]
  | c :: rest =>
    if c = sep then [] :: pySplit sep rest
    else
      match pySplit sep rest with
      | [] => [[c]]
      | p :: ps => (c :: p) :: ps

/-- The keyword arguments `tag()` passes to `docker_client.tag`. -/
structure TagArgs where
  image : List Char
  repository : List Char
  tag : List Char
  deriving DecidableEq

/-- `Plugin.tag`: when `':' in self.image`, unpack `self.image.split(':')`
into name and tag (a `ValueError` — more than two parts — becomes
`InvalidDockerImageNameError(image=self.image)`); otherwise the name is the
whole image and the tag is `latest`.  Then call the engine's tag operation
(`engineTag` oracle; its failure is `docker.errors.ImageNotFound`, raised as
`DockerImageNotFoundError(image=self.image)`). -/
def tagStep (p : Plugin) (engineTag : Except Unit Unit) : Except RigelError TagArgs :=
  let nameAndTag : Except RigelError (List Char × List Char) :=
    if countC ':' p.image ≠ 0 then
      match pySplit ':' p.image with
      | [n, t] => .ok (n, t)
      | _ => .error (.invalidDockerImageName p.image)
    else
      .ok (p.image, "latest".toList)
  match nameAndTag with
  | .error e => .error e
  | .ok (n, t) =>
    match engineTag with
    | .error _ => .error (.dockerImageNotFound p.image)
    | .ok _ => .ok ⟨p.local_image, p.registry ++ '/' :: n, t⟩

/-! ## `authenticate()`

The external collaborators are oracle inputs: the environment-variable store,
the identity service's `get_authorization_token` (failing with `ClientError`,
the one failure kind its interface declares), and the engine's `login`
(failing with `docker.errors.APIError`). -/

structure AuthEnv where
  env : String → Option String
  identity : Except Unit (List Nat)
  engineLogin : Except Unit Unit

/-- `Plugin.__get_env_var_value`: `os.environ.get(var)`, raising
`UndefinedEnvironmentVariableError(var=var)` on `None`. -/
def getEnvVarValue (env : String → Option String) (var : String) :
    Except RigelError String :=
  match env var with
  | none => .error (.undefinedEnvironmentVariable var)
  | some value => .ok value

/-- `Plugin.authenticate`: resolve the two credential environment variables
(access key first — Python evaluates keyword arguments left to right), call
the identity service (`ClientError` becomes `InvalidAWSCredentialsError`),
decode the token with `resolveToken`, then call the engine's login
(`APIError` becomes `InvalidImageRegistryError(registry=self.registry)`).
Returns the decoded token that `authenticate` stores in `self.token`. -/
def authenticate (p : Plugin) (a : AuthEnv) : Except RigelError (List Nat) :=
  match getEnvVarValue a.env p.access_key with
  | .error e => .error e
  | .ok _ =>
    match getEnvVarValue a.env p.secret_access_key with
    | .error e => .error e
    | .ok _ =>
      match a.identity with
      | .error _ => .error .invalidAWSCredentials
      | .ok encoded =>
        let token := resolveToken encoded
        match a.engineLogin with
        | .error _ => .error (.invalidImageRegistry p.registry)
        | .ok _ => .ok token

/-! ## `deploy()`

A stream record is a decoded mapping: `err` is the value of its `error` key
when present, and `parseable` is `false` when handling the record raises
`ValueError` (caught and logged as a warning).  `deployLoop` mirrors the
`while True` loop over `iter(image)`: the Python local `log` — the record
checked for `error` once `StopIteration` is hit — is the `last` argument. -/

structure LogRecord where
  err : Option String
  parseable : Bool
  deriving DecidableEq

inductive DeployEvent
  | printed (r : LogRecord)
  | warned (r : LogRecord)
  | infoSuccess (image : List Char)
  deriving DecidableEq

inductive DeployResult
  | ok
  | rigelErr (e : RigelError)
  | attributeError
  | unboundLocalError
  deriving DecidableEq

def deployLoop (name : List Char) : Option LogRecord → List LogRecord →
    List DeployEvent × DeployResult
  | last, [] =>
    match last with
    | none => ([], .unboundLocalError)
    | some log =>
      match log.err with
      | some m => ([], .rigelErr (.dockerPush m))
      | none => ([.infoSuccess name], .ok)
  | _, r :: rest =>
    ((if r.parseable then .printed r else .warned r) :: (deployLoop name (some r) rest).1,
      (deployLoop name (some r) rest).2)

/-- `f'{self.registry}/{self.image}'`. -/
def completeImageName (p : Plugin) : List Char :=
  p.registry ++ '/' :: p.image

/-- `Plugin.deploy`: reading `self.token` when `authenticate` never set it
raises `AttributeError` before the push is even started; otherwise the
engine's push yields `stream` and the record loop runs. -/
def deploy (p : Plugin) (token : Option (List Nat)) (stream : List LogRecord) :
    List DeployEvent × DeployResult :=
  match token with
  | none => ([], .attributeError)
  | some _ => deployLoop (completeImageName p) none stream

/-! ## `run()` -/

structure RunEnv where
  auth : AuthEnv
  engineTag : Except Unit Unit
  stream : List LogRecord

/-- `Plugin.run`: `tag`, then `authenticate`, then `deploy`, each uncaught
error aborting the sequence. -/
def run (p : Plugin) (E : RunEnv) : List DeployEvent × DeployResult :=
  match tagStep p E.engineTag with
  | .error e => ([], .rigelErr e)
  | .ok _ =>
    match authenticate p E.auth with
    | .error e => ([], .rigelErr e)
    | .ok token => deploy p (some token) E.stream

/-! ## Registry selectors of the two older package generations -/

inductive Backend
  | ecr
  | generic
  deriving DecidableEq

/-- Python `str.lower()` (ASCII): lowercase each character. -/
def pyLower (s : String) : String := ⟨s.data.map Char.toLower⟩

/-- `Plugin.__init__` of `rigel_registry_plugin/plugin.py`:
`registry_name = kwargs.get('registry') or ''` (absent and empty both give
`''`), then `ECRPlugin` exactly for `'ecr'` and the generic registry plugin
for everything else. -/
def selectRegistryNew (registry : Option String) : Backend :=
  let name := match registry with
    | none => ""
    | some s => if s = "" then "" else s
  if name = "ecr" then .ecr else .generic

/-- `Plugin.__init__` of `registry_rigel_plugin/plugin.py`: a missing
`registry` raises `MissingRequiredFieldError(field='registry')`; the value is
lowercased; `gitlab`/`dockerhub` give the generic plugin, `ecr` gives
`ECRPlugin`, anything else raises
`UnsupportedDockerRegistryError(registry=registry_name)` with the lowercased
name. -/
def selectRegistryOld (registry : Option String) : Except RigelError Backend :=
  match registry with
  | none => .error (.missingRequiredField "registry")
  | some s =>
    let name := pyLower s
    if name = "gitlab" ∨ name = "dockerhub" then .ok .generic
    else if name = "ecr" then .ok .ecr
    else .error (.unsupportedDockerRegistry name)

/-! ## Facts about the split helpers -/

theorem pySplit_length (sep : Char) (s : List Char) :
    (pySplit sep s).length = countC sep s + 1 := by
  induction s with
  | nil => rfl
  | cons c rest ih =>
    rw [pySplit, countC]
    by_cases hc : c = sep
    · simp [hc, ih]
      omega
    · rcases hsplit : pySplit sep rest with _ | ⟨p, ps⟩
      · rw [hsplit] at ih
        simp at ih
      · rw [hsplit] at ih
        simp only [if_neg hc, hsplit]
        simp [hc] at ih ⊢
        omega

theorem pySplit_no_sep (sep : Char) (s : List Char) (h : countC sep s = 0) :
    pySplit sep s = [s] := by
  induction s with
  | nil => rfl
  | cons c rest ih =>
    rw [countC] at h
    have hc : ¬ c = sep := by
      intro hcc
      rw [if_pos hcc] at h
      omega
    rw [if_neg hc] at h
    simp only [Nat.zero_add] at h
    rw [pySplit, if_neg hc, ih h]

theorem pySplit_sep_append (sep : Char) (n t : List Char) (hn : countC sep n = 0) :
    pySplit sep (n ++ sep :: t) = n :: pySplit sep t := by
  induction n with
  | nil => simp [pySplit]
  | cons c rest ih =>
    rw [countC] at hn
    have hc : ¬ c = sep := by
      intro hcc
      rw [if_pos hcc] at hn
      omega
    rw [if_neg hc] at hn
    simp only [Nat.zero_add] at hn
    rw [List.cons_append, pySplit, if_neg hc, ih hn]

theorem countC_append (sep : Char) (n t : List Char) :
    countC sep (n ++ t) = countC sep n + countC sep t := by
  induction n with
  | nil => simp [countC]
  | cons c rest ih =>
    rw [List.cons_append, countC, countC, ih]
    omega

/-! ## Claim theorems: configuration validation and `tag()` -/

/-- Claim C7: for every credential spec missing the access-key or the
secret-access-key sub-field, construction (`__post_init__`) fails with
`MissingRequiredFieldError` whose field names the exact missing path,
`credentials[access_key]` resp. `credentials[secret_access_key]` (the
sub-fields are checked in that order). -/
theorem C7_missing_credential_field (cfg : PluginConfig) :
    (cfg.credentials.access_key = none →
      pluginPostInit cfg = .error (.missingRequiredField "credentials[access_key]")) ∧
    (∀ ak, cfg.credentials.access_key = some ak →
      cfg.credentials.secret_access_key = none →
      pluginPostInit cfg = .error (.missingRequiredField "credentials[secret_access_key]")) := by
  constructor
  · intro h
    rw [pluginPostInit, h]
  · intro ak hak hsk
    rw [pluginPostInit, hak, hsk]

/-- Claim C3: for every target image reference, `tag()` computes
`registry = "{accountId}.dkr.ecr.{region}.amazonaws.com"` (set by
`__post_init__`), splits the reference into name and tag — the tag defaulting
to `latest` when no `':'` is present — and invokes the engine tag operation
mapping the local image to `registry/name` with that tag; a reference with
more than one `':'` instead fails with `InvalidImageNameError` carrying the
original reference (before the engine is consulted). -/
theorem C3_tag_behaviour (cfg : PluginConfig) (p : Plugin)
    (hp : pluginPostInit cfg = .ok p) :
    p.registry = ecrRegistry cfg.account cfg.region ∧
    (countC ':' p.image = 0 →
      tagStep p (.ok ()) =
        .ok ⟨p.local_image, ecrRegistry cfg.account cfg.region ++ '/' :: p.image,
          "latest".toList⟩) ∧
    (∀ n t, countC ':' n = 0 → countC ':' t = 0 → p.image = n ++ ':' :: t →
      tagStep p (.ok ()) =
        .ok ⟨p.local_image, ecrRegistry cfg.account cfg.region ++ '/' :: n, t⟩) ∧
    (∀ engineTag, 2 ≤ countC ':' p.image →
      tagStep p engineTag = .error (.invalidDockerImageName p.image)) := by
  have hreg : p.registry = ecrRegistry cfg.account cfg.region := by
    rw [pluginPostInit] at hp
    rcases hak : cfg.credentials.access_key with _ | ak
    · rw [hak] at hp; exact absurd hp (by simp)
    · rcases hsk : cfg.credentials.secret_access_key with _ | sk
      · rw [hak, hsk] at hp; exact absurd hp (by simp)
      · rw [hak, hsk] at hp
        cases hp
        rfl
  refine ⟨hreg, ?_, ?_, ?_⟩
  · intro h
    rw [tagStep]
    simp only [h, ne_eq, not_true_eq_false, if_false, hreg]
  · intro n t hn ht himg
    have hcount : countC ':' p.image = 1 := by
      rw [himg, countC_append, countC, hn, ht]
      simp
    have hsplit : pySplit ':' p.image = [n, t] := by
      rw [himg, pySplit_sep_append ':' n t hn, pySplit_no_sep ':' t ht]
    rw [tagStep]
    simp only [hcount, hsplit, hreg]
    norm_num
  · intro engineTag h2
    have hlen : 3 ≤ (pySplit ':' p.image).length := by
      rw [pySplit_length]
      omega
    rw [tagStep]
    have hne : countC ':' p.image ≠ 0 := by omega
    simp only [hne, ne_eq, not_false_eq_true, if_true]
    rcases hsplit : pySplit ':' p.image with _ | ⟨a, _ | ⟨b, _ | ⟨c, rest⟩⟩⟩
    · rw [hsplit] at hlen
      try simp at hlen
    · rw [hsplit] at hlen
      try simp at hlen
    · rw [hsplit] at hlen
      try simp at hlen
    · rfl

/-! ## Claim theorems: `authenticate()` -/

/-- Claim C6: if either credential environment variable named in the
configuration is unset, `authenticate()` fails with
`UndefinedEnvironmentVariableError` carrying that variable's name (the access
key checked first), whatever the identity service and the engine login would
answer — so the failure occurs before any identity-service call is
attempted. -/
theorem C6_undefined_env_var (p : Plugin) (env : String → Option String) :
    (env p.access_key = none → ∀ identity engineLogin,
      authenticate p ⟨env, identity, engineLogin⟩ =
        .error (.undefinedEnvironmentVariable p.access_key)) ∧
    (∀ v, env p.access_key = some v → env p.secret_access_key = none →
      ∀ identity engineLogin,
        authenticate p ⟨env, identity, engineLogin⟩ =
          .error (.undefinedEnvironmentVariable p.secret_access_key)) := by
  constructor
  · intro h identity engineLogin
    simp [authenticate, getEnvVarValue, h]
  · intro v hv h identity engineLogin
    simp [authenticate, getEnvVarValue, hv, h]

/-- Claim C4: with both credential environment variables resolved,
`authenticate()` fails with `InvalidAWSCredentialsError` exactly when the
identity-service call errors (the one `ClientError` failure kind of its
interface, collapsed into that error), and fails with
`InvalidImageRegistryError` carrying the registry exactly when the identity
call succeeded and the engine login rejected the registry/credentials
combination. -/
theorem C4_authenticate_failure_kinds (p : Plugin) (a : AuthEnv) (ak sk : String)
    (hak : a.env p.access_key = some ak) (hsk : a.env p.secret_access_key = some sk) :
    (authenticate p a = .error .invalidAWSCredentials ↔ a.identity = .error ()) ∧
    (authenticate p a = .error (.invalidImageRegistry p.registry) ↔
      ((∃ tok, a.identity = .ok tok) ∧ a.engineLogin = .error ())) := by
  rcases hid : a.identity with ⟨⟨⟩⟩ | tok <;> rcases hlog : a.engineLogin with ⟨⟨⟩⟩ | ⟨⟩ <;>
    simp [authenticate, getEnvVarValue, hak, hsk, hid, hlog]

/-- Claim C1 (amended): when the identity service returns
`authorizationToken = base64("AWS:" + secret)` for a secret byte string in
which the four-byte pattern `AWS:` does not occur, `authenticate()` resolves
the usable password to exactly that secret.  (The code removes every
occurrence of `AWS:`, not only the prefix, so the restriction is needed:
see `C1_counterexample`.) -/
theorem C1_token_roundtrip_amended (p : Plugin) (a : AuthEnv) (ak sk : String)
    (secret : List Nat)
    (hak : a.env p.access_key = some ak) (hsk : a.env p.secret_access_key = some sk)
    (hbytes : ∀ x ∈ secret, x < 256) (hfree : hasAWS secret = false)
    (hid : a.identity = .ok (b64encode (awsMarker ++ secret)))
    (hlogin : a.engineLogin = .ok ()) :
    authenticate p a = .ok secret := by
  have hall : ∀ x ∈ awsMarker ++ secret, x < 256 := by
    intro x hx
    rcases List.mem_append.mp hx with hx | hx
    · simp [awsMarker] at hx
      omega
    · exact hbytes x hx
  simp only [authenticate, getEnvVarValue, hak, hsk, hid, hlogin]
  rw [resolveToken, b64decode_b64encode _ hall, pyReplaceAWS_marker secret hfree]

/-- A concrete validated plugin instance, used to instantiate the
hypothesis-bearing theorems at concrete inputs. -/
def samplePlugin : Plugin :=
  ⟨123456789, "AWS_ACCESS_KEY", "AWS_SECRET_ACCESS_KEY", "svc".toList,
    "us-east-1".toList, "rigel:temp".toList, "AWS",
    ecrRegistry 123456789 "us-east-1".toList⟩

/-- The UTF-8 bytes of the secret `"xAWS:y"`, which contains the marker. -/
def c1Secret : List Nat := [120, 65, 87, 83, 58, 121]

def c1Auth : AuthEnv :=
  ⟨fun _ => some "value", .ok (b64encode (awsMarker ++ c1Secret)), .ok ()⟩

/-- Claim C1 counterexample: for the secret `"xAWS:y"` (bytes
`[120, 65, 87, 83, 58, 121]`, no control bytes), the identity service returns
`base64("AWS:" + secret)`, yet `authenticate()` resolves the password to
`"xy"` (`[120, 121]`), not to the secret: `bytes.replace` deletes the inner
occurrence of `AWS:` too. -/
theorem C1_counterexample :
    c1Auth.identity = .ok (b64encode (awsMarker ++ c1Secret)) ∧
    c1Secret = [120, 65, 87, 83, 58, 121] ∧
    authenticate samplePlugin c1Auth = .ok [120, 121] ∧
    (([120, 121] : List Nat) == c1Secret) = false := by
  refine ⟨rfl, rfl, ?_, rfl⟩
  rfl

def c1AuthW : AuthEnv :=
  ⟨fun _ => some "value", .ok (b64encode (awsMarker ++ [112, 119])), .ok ()⟩

/-- Witness for `C1_token_roundtrip_amended`: the secret `"pw"`
(bytes `[112, 119]`) round-trips exactly. -/
theorem C1_amended_witness :
    authenticate samplePlugin c1AuthW = .ok [112, 119] :=
  C1_token_roundtrip_amended samplePlugin c1AuthW "value" "value" [112, 119]
    rfl rfl (by decide) (by decide) rfl rfl

def c4AuthBadCreds : AuthEnv := ⟨fun _ => some "value", .error (), .ok ()⟩

/-- Witness for `C4_authenticate_failure_kinds`: a failing identity call
yields `InvalidAWSCredentialsError`. -/
theorem C4_witness :
    authenticate samplePlugin c4AuthBadCreds = .error .invalidAWSCredentials :=
  (C4_authenticate_failure_kinds samplePlugin c4AuthBadCreds "value" "value"
    rfl rfl).1.mpr rfl

def c3Config : PluginConfig :=
  ⟨123456789, ⟨some "AWS_ACCESS_KEY", some "AWS_SECRET_ACCESS_KEY"⟩,
    "svc:1.0".toList, "us-east-1".toList, "rigel:temp".toList, "AWS"⟩

def c3Plugin : Plugin :=
  ⟨123456789, "AWS_ACCESS_KEY", "AWS_SECRET_ACCESS_KEY", "svc:1.0".toList,
    "us-east-1".toList, "rigel:temp".toList, "AWS",
    ecrRegistry 123456789 "us-east-1".toList⟩

/-- Witness for `C3_tag_behaviour`: image `svc:1.0` is tagged as repository
`123456789.dkr.ecr.us-east-1.amazonaws.com/svc` with tag `1.0`. -/
theorem C3_witness :
    tagStep c3Plugin (.ok ()) =
      .ok ⟨"rigel:temp".toList,
        ecrRegistry 123456789 "us-east-1".toList ++ '/' :: "svc".toList,
        "1.0".toList⟩ :=
  (C3_tag_behaviour c3Config c3Plugin rfl).2.2.1 "svc".toList "1.0".toList
    (by decide) (by decide) (by decide)

/-! ## Facts about the `deploy()` record loop -/

theorem deployLoop_cons (name : List Char) (last : Option LogRecord) (r0 : LogRecord)
    (rest : List LogRecord) :
    deployLoop name last (r0 :: rest) =
      ((if r0.parseable then DeployEvent.printed r0 else DeployEvent.warned r0) ::
          (deployLoop name (some r0) rest).1,
        (deployLoop name (some r0) rest).2) :=
  rfl

theorem deployLoop_mem_printed (name : List Char) (rs : List LogRecord) :
    ∀ last, ∀ r ∈ rs, r.parseable = true →
      DeployEvent.printed r ∈ (deployLoop name last rs).1 := by
  induction rs with
  | nil =>
    intro last r hr
    simp at hr
  | cons r0 rest ih =>
    intro last r hr hp
    rw [deployLoop_cons]
    rcases List.mem_cons.mp hr with h0 | hmem
    · subst h0
      rw [if_pos hp]
      exact List.mem_cons_self _ _
    · exact List.mem_cons_of_mem _ (ih (some r0) r hmem hp)

theorem deployLoop_mem_warned (name : List Char) (rs : List LogRecord) :
    ∀ last, ∀ r ∈ rs, r.parseable = false →
      DeployEvent.warned r ∈ (deployLoop name last rs).1 := by
  induction rs with
  | nil =>
    intro last r hr
    simp at hr
  | cons r0 rest ih =>
    intro last r hr hp
    rw [deployLoop_cons]
    rcases List.mem_cons.mp hr with h0 | hmem
    · subst h0
      rw [if_neg (by rw [hp]; exact Bool.false_ne_true)]
      exact List.mem_cons_self _ _
    · exact List.mem_cons_of_mem _ (ih (some r0) r hmem hp)

theorem deployLoop_result (name : List Char) (r : LogRecord) (rs : List LogRecord) :
    rs.getLast? = some r → ∀ last,
      (deployLoop name last rs).2 =
        (match r.err with
          | some m => DeployResult.rigelErr (.dockerPush m)
          | none => DeployResult.ok) := by
  induction rs with
  | nil =>
    intro h
    simp at h
  | cons r0 rest ih =>
    intro h last
    rcases hrest : rest with _ | ⟨r1, tail⟩
    · subst hrest
      rw [List.getLast?_singleton] at h
      injection h with h
      subst h
      rw [deployLoop_cons]
      cases herr : r0.err <;> simp [deployLoop, herr]
    · subst hrest
      rw [List.getLast?_cons_cons] at h
      rw [deployLoop_cons]
      exact ih h (some r0)

theorem deployLoop_success_mem (name : List Char) (r : LogRecord) (rs : List LogRecord) :
    rs.getLast? = some r → r.err = none → ∀ last,
      DeployEvent.infoSuccess name ∈ (deployLoop name last rs).1 := by
  induction rs with
  | nil =>
    intro h
    simp at h
  | cons r0 rest ih =>
    intro h herr last
    rcases hrest : rest with _ | ⟨r1, tail⟩
    · subst hrest
      rw [List.getLast?_singleton] at h
      injection h with h
      subst h
      rw [deployLoop_cons]
      refine List.mem_cons_of_mem _ ?_
      simp [deployLoop, herr]
    · subst hrest
      rw [List.getLast?_cons_cons] at h
      rw [deployLoop_cons]
      exact List.mem_cons_of_mem _ (ih h herr (some r0))

/-! ## Claim theorems: `deploy()` and `run()` -/

/-- Claim C5: for every (nonempty) push log stream, `deploy()` forwards each
parseable record to the log printer and logs a warning for (and skips) each
record whose handling raises `ValueError`, never fatally; the terminal record
is the stream's last record: when it carries an `error` field the outcome is
`DockerPushError` with that message, otherwise the outcome is success and the
success message naming the pushed reference is emitted. -/
theorem C5_deploy_stream (p : Plugin) (t : List Nat) (rs : List LogRecord) :
    (∀ r ∈ rs, r.parseable = true →
      DeployEvent.printed r ∈ (deploy p (some t) rs).1) ∧
    (∀ r ∈ rs, r.parseable = false →
      DeployEvent.warned r ∈ (deploy p (some t) rs).1) ∧
    (∀ r m, rs.getLast? = some r → r.err = some m →
      (deploy p (some t) rs).2 = .rigelErr (.dockerPush m)) ∧
    (∀ r, rs.getLast? = some r → r.err = none →
      (deploy p (some t) rs).2 = .ok ∧
        DeployEvent.infoSuccess (completeImageName p) ∈ (deploy p (some t) rs).1) := by
  refine ⟨?_, ?_, ?_, ?_⟩
  · intro r hr hp
    exact deployLoop_mem_printed (completeImageName p) rs none r hr hp
  · intro r hr hp
    exact deployLoop_mem_warned (completeImageName p) rs none r hr hp
  · intro r m hlast herr
    have hres := deployLoop_result (completeImageName p) r rs hlast none
    rw [herr] at hres
    exact hres
  · intro r hlast herr
    constructor
    · have hres := deployLoop_result (completeImageName p) r rs hlast none
      rw [herr] at hres
      exact hres
    · exact deployLoop_success_mem (completeImageName p) r rs hlast herr none

/-- Does this deploy outcome belong to the documented typed-error taxonomy? -/
def isTypedRigelError : DeployResult → Bool
  | .rigelErr _ => true
  | _ => false

/-- Claim C9: calling `deploy()` on a backend whose `authenticate()` never
set `self.token` raises the untyped `AttributeError` (before any record is
handled), which is not a member of the documented error taxonomy. -/
theorem C9_deploy_before_authenticate (p : Plugin) (stream : List LogRecord) :
    deploy p none stream = ([], .attributeError) ∧
    isTypedRigelError .attributeError = false :=
  ⟨rfl, rfl⟩

/-- Claim C10: a push yielding an empty log stream makes `deploy()` raise the
unhandled `UnboundLocalError` (the local `log` was never assigned when
`StopIteration` hits), rather than reporting success or a `PushError`. -/
theorem C10_empty_stream_unbound_local (p : Plugin) (t : List Nat) :
    deploy p (some t) [] = ([], .unboundLocalError) :=
  rfl

/-- Claim C8: `run()` invokes `tag()`, then `authenticate()`, then
`deploy()`: a tag error is returned unmodified whatever the authentication
oracles and the push stream would be (later steps never attempted); with tag
succeeded, an authentication error is returned unmodified whatever the push
stream would be; with both succeeded, `run()` is exactly the deploy of the
freshly decoded token. -/
theorem C8_run_order (p : Plugin) :
    (∀ engineTag e, tagStep p engineTag = .error e → ∀ auth stream,
      run p ⟨auth, engineTag, stream⟩ = ([], .rigelErr e)) ∧
    (∀ engineTag args, tagStep p engineTag = .ok args → ∀ auth e,
      authenticate p auth = .error e → ∀ stream,
        run p ⟨auth, engineTag, stream⟩ = ([], .rigelErr e)) ∧
    (∀ engineTag args, tagStep p engineTag = .ok args → ∀ auth token,
      authenticate p auth = .ok token → ∀ stream,
        run p ⟨auth, engineTag, stream⟩ = deploy p (some token) stream) := by
  refine ⟨?_, ?_, ?_⟩
  · intro engineTag e htag auth stream
    simp [run, htag]
  · intro engineTag args htag auth e hauth stream
    simp [run, htag, hauth]
  · intro engineTag args htag auth token hauth stream
    simp [run, htag, hauth]

/-! ## Claim theorems: registry selection -/

/-- Claim C2 (amended): the two selector generations disagree and neither
matches the claim in full.  In `rigel_registry_plugin/plugin.py`, `"ecr"`
selects the ECR backend and every other value — absent, empty, `"gitlab"`,
`"dockerhub"` or unrecognized — selects the Generic backend and never fails.
In `registry_rigel_plugin/plugin.py`, an absent value fails with
`MissingRequiredFieldError("registry")`, a value lowercasing to `"ecr"`
selects ECR, one lowercasing to `"gitlab"` or `"dockerhub"` selects Generic,
and anything else — the empty string included — fails with
`UnsupportedDockerRegistryError` carrying the lowercased value. -/
theorem C2_selector_characterisation :
    (selectRegistryNew none = .generic) ∧
    (selectRegistryNew (some "") = .generic) ∧
    (selectRegistryNew (some "ecr") = .ecr) ∧
    (∀ s, s ≠ "ecr" → selectRegistryNew (some s) = .generic) ∧
    (selectRegistryOld none = .error (.missingRequiredField "registry")) ∧
    (∀ s, pyLower s = "ecr" → selectRegistryOld (some s) = .ok .ecr) ∧
    (∀ s, pyLower s = "gitlab" ∨ pyLower s = "dockerhub" →
      selectRegistryOld (some s) = .ok .generic) ∧
    (∀ s, pyLower s ≠ "gitlab" → pyLower s ≠ "dockerhub" → pyLower s ≠ "ecr" →
      selectRegistryOld (some s) = .error (.unsupportedDockerRegistry (pyLower s))) := by
  refine ⟨rfl, rfl, rfl, ?_, rfl, ?_, ?_, ?_⟩
  · intro s hs
    by_cases h0 : s = ""
    · subst h0
      rfl
    · simp only [selectRegistryNew, if_neg h0, if_neg hs]
  · intro s h
    simp [selectRegistryOld, h]
  · intro s h
    simp only [selectRegistryOld, if_pos h]
  · intro s h1 h2 h3
    simp only [selectRegistryOld]
    rw [if_neg (by exact fun hor => hor.elim h1 h2), if_neg h3]

/-- Claim C2 counterexample: the `rigel_registry_plugin` selector maps the
unrecognized non-empty value `"quay"` to the Generic backend instead of
failing with `UnsupportedRegistryError`, and the `registry_rigel_plugin`
selector fails on the empty value instead of selecting the Generic
backend. -/
theorem C2_counterexample :
    selectRegistryNew (some "quay") = .generic ∧
    selectRegistryOld (some "") = .error (.unsupportedDockerRegistry "") := by
  constructor
  · rfl
  · have hl : pyLower "" = "" := by decide
    simp [selectRegistryOld, hl]

end EcrRigel
